import Mathlib

/-!
Shallow embedding of the reference-genome acquisition scripts of this
repository (`download_ensembl_data.py` and `download_ncbi_data.py`).

External effects (FTP listings, file transfers, the `datasets` CLI, gzip
decompression, the `sum` digest command) are supplied by explicit oracle
parameters; the local file system is an association list from file names
(relative to the per-species output directory) to file contents.  Network
operations performed by a run are recorded in an event trace so that
claims about "zero network transfers" and retry counts can be stated.
-/

/- ### Character-list string utilities (structural, kernel-evaluable) -/

/-- Test whether the character list `pat` occurs as a contiguous substring,
mirroring the Python `pat in hay` operator. -/
def listContainsSub (pat : List Char) : List Char → Bool
  | [] => pat.isEmpty
  | c :: rest => pat.isPrefixOf (c :: rest) || listContainsSub pat rest

/-- Python `pat in hay` on strings. -/
def containsSub (hay pat : String) : Bool := listContainsSub pat.data hay.data

/-- Python `s.endswith(pat)`. -/
def strEndsWith (s pat : String) : Bool := pat.data.isSuffixOf s.data

/-- Remove every (left-to-right, non-overlapping) occurrence of `.gz`,
mirroring Python `s.replace(".gz", "")`. -/
def stripGz : List Char → List Char
  | '.' :: 'g' :: 'z' :: rest => stripGz rest
  | c :: rest => c :: stripGz rest
  | [] => []

/-- Python `s.replace(".gz", "")`. -/
def replaceGz (s : String) : String := ⟨stripGz s.data⟩

/- ### Local file-system model -/

/-- A file system: file name to file content, names relative to the
per-species output directory. -/
abbrev FS := List (String × String)

/-- Python `Path(k).exists()`. -/
def existsFile (fs : FS) (k : String) : Bool := (List.lookup k fs).isSome

/-- Content of file `k` (empty if absent; callers only read existing files). -/
def readFile (fs : FS) (k : String) : String := (List.lookup k fs).getD ""

/-- Python `Path(k).unlink()`. -/
def removeKey (fs : FS) (k : String) : FS := fs.filter (fun p => p.1 != k)

/-- Create or truncate-and-write file `k` with content `v`
(Python `open(k, "wb")` followed by writes). -/
def writeFile (fs : FS) (k v : String) : FS := (k, v) :: removeKey fs k

/- ### Network events -/

/-- Network operations performed against the remote archive, in order. -/
inductive NetEvent
  | connect
  | nlst (fileType : String)
  | retrChecksums
  | retrAsset (name : String)
  | retrReadme
deriving Repr, DecidableEq

/-- Whether the event is a fetch of an asset or README file
(an `RETR` of a requested file, as opposed to connecting, listing a
directory, or retrieving the `CHECKSUMS` manifest). -/
def NetEvent.isFetch : NetEvent → Bool
  | .retrAsset _ => true
  | .retrReadme => true
  | _ => false

/- ### The Ensembl fetcher `download_file` -/

/-- Outcome of one transfer attempt: the bytes that end up written to the
local file (the full content on success, whatever arrived before the
interruption otherwise) and whether the attempt succeeded. -/
structure AttemptOutcome where
  written : String
  ok : Bool
deriving Repr, DecidableEq

/-- Body of the retry loop of `download_file` (download_ensembl_data.py,
lines 50-61).  In the source the `try` block encloses the whole
`for attempt in range(max_retries)` loop, so the first raised transfer
exception leaves the loop and the `try` and falls through to
`return False`; a successful attempt executes `return True` immediately.
Consequently later iterations are unreachable and the loop body never
repeats.  Returns the file system, the success flag, and the number of
attempts actually made. -/
def download_fileLoop (attempts : Nat → AttemptOutcome) (fs : FS) (path : String) :
    Nat → Nat → FS × Bool × Nat
  | 0, made => (fs, false, made)
  | _ + 1, made =>
    let a := attempts made
    let fs1 := writeFile fs path a.written
    if a.ok then (fs1, true, made + 1)
    else (fs1, false, made + 1)

/-- The Ensembl `download_file(ftp, remote_path, filename, local_dir,
max_retries)` (download_ensembl_data.py, lines 50-61). -/
def download_file (attempts : Nat → AttemptOutcome) (maxRetries : Nat) (fs : FS)
    (path : String) : FS × Bool × Nat :=
  download_fileLoop attempts fs path maxRetries 0

/- ### The NCBI per-species controller `download_genome` -/

/-- One `files` entry of `dataset_catalog.json`. -/
structure CatFile where
  fileType : String
  filePath : String
deriving Repr, DecidableEq

/-- One `assemblies` entry of `dataset_catalog.json`; `hasAccession` is
whether the JSON object carries an `accession` key. -/
structure Assembly where
  hasAccession : Bool
  files : List CatFile
deriving Repr, DecidableEq

/-- Local state consulted by the NCBI controller: whether
`ncbi_dataset/data/dataset_catalog.json` exists, its parsed content, and
the set of data files present on disk (paths relative to the species
directory). -/
structure NcbiState where
  catalogExists : Bool
  assemblies : List Assembly
  present : List String
deriving Repr, DecidableEq

/-- File-existence test in the species directory. -/
def ncbiExists (st : NcbiState) (p : String) : Bool := st.present.contains p

/-- The `for file in ...files` loop of download_ncbi_data.py (lines 56-62):
each entry of matching `fileType` reassigns the variable, so the last
match wins; `none` means the variable kept its initial falsy value. -/
def findFile (files : List CatFile) (t : String) : Option String :=
  files.foldl
    (fun acc f => if f.fileType == t then some ("ncbi_dataset/data/" ++ f.filePath) else acc)
    none

/-- External outcome of one unzip of `ncbi_dataset.zip`. -/
inductive ZipOutcome
  | badZip
  | extracted (catalogNow : Bool)
deriving Repr, DecidableEq

/-- Oracle for one iteration of the NCBI download loop: whether the
`datasets` command exited with code 0, and what extracting the zip did. -/
structure NcbiAttempt where
  cmdOk : Bool
  zipOutcome : ZipOutcome
deriving Repr, DecidableEq

/-- The `for attempt in range(max_retries)` download loop of
download_ncbi_data.py (lines 88-113), returning the number of `datasets`
invocations made and the success flag of the `return` that ended it.
When the command succeeds, the zip extracts, and `dataset_catalog.json`
exists, the source executes `zip_file.unlink()` where the name `zip_file`
is never defined, so a `NameError` is raised; it is not a
`zipfile.BadZipFile` nor a `FileNotFoundError`, so it escapes the inner
handlers and is caught by the enclosing `except Exception`, which falls
through to `return (species, False)`.  `BadZipFile` and
`FileNotFoundError` are caught inside the loop and the loop continues;
a nonzero exit code merely prints and continues. -/
def ncbiLoop (attempts : Nat → NcbiAttempt) : Nat → Nat → Nat × Bool
  | 0, n => (n, false)
  | fuel + 1, n =>
    let a := attempts n
    if a.cmdOk then
      match a.zipOutcome with
      | .extracted true => (n + 1, false)
      | .extracted false => ncbiLoop attempts fuel (n + 1)
      | .badZip => ncbiLoop attempts fuel (n + 1)
    else ncbiLoop attempts fuel (n + 1)

/-- The download section of `download_genome`: runs the retry loop and
returns (success flag, number of `datasets` invocations). -/
def dlSection (attempts : Nat → NcbiAttempt) (maxRetries : Nat) : Bool × Nat :=
  let r := ncbiLoop attempts maxRetries 0
  (r.2, r.1)

/-- The NCBI per-species controller `download_genome(species, output_dir,
max_retries, file_types)` (download_ncbi_data.py, lines 15-121),
projected to its decision logic: returns the success flag of the returned
`(species, flag)` pair together with the number of `datasets` command
invocations performed.  `fileTypes` is the comma-joined string passed by
`main` (for example `"genome,gtf"`); the source tests membership with the
`in` operator on that string. -/
def download_genome (st : NcbiState) (attempts : Nat → NcbiAttempt) (maxRetries : Nat)
    (fileTypes : String) : Bool × Nat :=
  if st.catalogExists then
    match st.assemblies.find? (fun a => a.hasAccession) with
    | none => dlSection attempts maxRetries
    | some asm =>
      let fastaFile := findFile asm.files "GENOMIC_NUCLEOTIDE_FASTA"
      let gtfFile := findFile asm.files "GTF"
      let fasta := match fastaFile with
        | some p => ncbiExists st p
        | none => false
      let gtf := match gtfFile with
        | some p => ncbiExists st p
        | none => true
      if fasta && gtf then (true, 0)
      else if fasta && !(containsSub fileTypes "gtf") then (true, 0)
      else if gtf && !(containsSub fileTypes "genome") then (true, 0)
      else dlSection attempts maxRetries
  else dlSection attempts maxRetries

/- ### The Ensembl candidate filter -/

/-- The predicate of download_ensembl_data.py line 120:
`f.endswith(file_types_ext[file_type]) and "abinitio" not in f`. -/
def keepFile (ext f : String) : Bool := strEndsWith f ext && !(containsSub f "abinitio")

/-- `matches = [f for f in file_list if ...]` (line 120); `get_genome`
selects `matches[0]`. -/
def candidate_matches (fileList : List String) (ext : String) : List String :=
  fileList.filter (keepFile ext)

/- ### The Ensembl per-species controller `get_genome` -/

/-- Oracle describing the remote directory of one file type: whether
`ftp.nlst()` returns without raising, the listing it yields, whether the
`CHECKSUMS` retrieval succeeds, the parsed manifest
(`file name` to `digest`, download_ensembl_data.py line 129), and the
transfer outcomes for the asset and README downloads. -/
structure FtEnv where
  nlstOk : Bool
  listing : List String
  checksumsOk : Bool
  checksums : List (String × String)
  assetAttempts : Nat → AttemptOutcome
  readmeAttempts : Nat → AttemptOutcome

/-- Oracle for one `get_genome` call: whether the FTP connection opens,
the per-file-type remote directory, the gzip decompressor (content of the
compressed file to decompressed content, `none` when `gzip` raises), and
the `sum` digest command (`linux_sum`, line 91-93). -/
structure EnsemblEnv where
  connectOk : Bool
  perType : String → FtEnv
  gunzip : String → Option String
  linux_sum : String → String

/-- Exceptions that escape `get_genome` uncaught: `ftp.nlst()` raising in
`get_ftp_files` (whose `try` only covers `ftp.cwd`, lines 43-48), and the
`NameError` of reading the never-assigned `unzipped_file` (line 138). -/
inductive PyErr
  | nameError
  | listError
deriving Repr, DecidableEq

/-- Running state of one `get_genome` call: the species output directory,
the network-event trace, the `download_files` accumulator, and the
current binding of the Python local variable `unzipped_file` (which
persists across loop iterations, so a later iteration can read a stale
value assigned by an earlier one). -/
structure GSt where
  fs : FS
  trace : List NetEvent
  downloads : List String
  unzippedVar : Option String
deriving Repr, DecidableEq

/-- `file_types_ext = {"fasta": dna_file_ext, "gtf": "gtf.gz"}`
(line 113); argparse restricts `file_types` to these two choices. -/
def extOf (dnaExt ft : String) : String := if ft == "fasta" then dnaExt else "gtf.gz"

/-- One iteration of the `for file_type in file_types` loop of
`get_genome` (download_ensembl_data.py, lines 116-183).  An `error`
result is an exception escaping the iteration, carrying the state at the
moment it was raised. -/
def processType (env : EnsemblEnv) (force : Bool) (dnaExt : String) (st : GSt)
    (ft : String) : Except (PyErr × GSt) GSt :=
  let fe := env.perType ft
  let st := { st with trace := st.trace ++ [NetEvent.nlst ft] }
  if !fe.nlstOk then .error (.listError, st)
  else
    match candidate_matches fe.listing (extOf dnaExt ft) with
    | [] => .ok st
    | m0 :: _ =>
      let st := { st with trace := st.trace ++ [NetEvent.retrChecksums] }
      let checksums := if fe.checksumsOk then fe.checksums else []
      let unz : Option String :=
        if strEndsWith m0 ".gz" then some (replaceGz m0) else st.unzippedVar
      match unz with
      | none => .error (.nameError, st)
      | some unzipped =>
        let st := { st with unzippedVar := some unzipped }
        let gz := m0
        let extracted := unzipped
        if !(existsFile st.fs extracted) || force then
          let pre : FS × Bool :=
            if existsFile st.fs gz then
              match List.lookup gz checksums with
              | some v =>
                if env.linux_sum (readFile st.fs gz) == v then (st.fs, false)
                else (removeKey st.fs gz, true)
              | none => (st.fs, true)
            else (st.fs, true)
          let st := { st with fs := pre.1 }
          let download := pre.2
          let afterDl : Except GSt GSt :=
            if download || force then
              let d1 := download_file fe.assetAttempts 3 st.fs gz
              let d2 := download_file fe.readmeAttempts 3 d1.1 "README"
              let st := { st with fs := d2.1 }
              let st := { st with trace := st.trace ++ [NetEvent.retrAsset gz, NetEvent.retrReadme] }
              let st :=
                if existsFile st.fs "README" then
                  { st with fs := writeFile (removeKey st.fs "README") (ft ++ "_README")
                                    (readFile st.fs "README") }
                else st
              match List.lookup gz checksums with
              | some v =>
                if env.linux_sum (readFile st.fs gz) == v then .ok st
                else .error { st with fs := removeKey st.fs gz }
              | none => .ok st
            else .ok st
          match afterDl with
          | .error stc => .ok stc
          | .ok st =>
            if existsFile st.fs gz then
              match env.gunzip (readFile st.fs gz) with
              | some out =>
                let st := { st with fs := removeKey (writeFile st.fs extracted out) gz }
                .ok { st with downloads := st.downloads ++ [extracted] }
              | none =>
                .ok { st with fs := writeFile st.fs extracted "" }
            else .ok st
        else .ok st

/-- The `for file_type in file_types` loop; an exception raised in one
iteration propagates out of `get_genome` (there is no handler around the
loop body). -/
def runTypes (env : EnsemblEnv) (force : Bool) (dnaExt : String) :
    List String → GSt → Except (PyErr × GSt) GSt
  | [], st => .ok st
  | ft :: rest, st =>
    match processType env force dnaExt st ft with
    | .ok st1 => runTypes env force dnaExt rest st1
    | .error e => .error e

/-- The Ensembl per-species controller `get_genome` (lines 96-186).
Returns the final state together with: `ok none` when the FTP connection
failed (the source returns `None`), `ok (some files)` for a normal return
of `download_files`, and `error e` when an exception escaped. -/
def get_genome (env : EnsemblEnv) (fileTypes : List String) (force : Bool)
    (dnaExt : String) (fs0 : FS) : GSt × Except PyErr (Option (List String)) :=
  if !env.connectOk then
    (⟨fs0, [NetEvent.connect], [], none⟩, .ok none)
  else
    match runTypes env force dnaExt fileTypes ⟨fs0, [NetEvent.connect], [], none⟩ with
    | .ok st => (st, .ok (some st.downloads))
    | .error (e, st) => (st, .error e)

/-- A per-species controller as seen by the scheduler: each species has
its own oracle (its own connection and remote directory) and its own
output directory. -/
def ensemblController (envOf : String → EnsemblEnv) (fileTypes : List String)
    (force : Bool) (dnaExt : String) (fs0 : FS) (species : String) :
    Except PyErr (Option (List String)) :=
  (get_genome (envOf species) fileTypes force dnaExt fs0).2

/- ### The fan-out scheduler -/

/-- The sequential branch of `main` (download_ensembl_data.py lines
254-257): `for species in species_list: results.append(get_genome(...))`. -/
def runSequential (f : α → β) : List α → List β
  | [] => []
  | a :: rest => f a :: runSequential f rest

/-- The parallel branch (lines 249-253): `pool.starmap` returns one
result per input, in input order. -/
def runPool (f : α → β) (l : List α) : List β := l.map f

/-- The dispatch of `main`: `if args.processes > 1` use the pool,
otherwise the sequential loop. -/
def runScheduler (f : α → β) (processes : Nat) (l : List α) : List β :=
  if processes > 1 then runPool f l else runSequential f l

/-- The sequential scheduler loop as it behaves when the per-species call
can raise: an exception in one species propagates out of the loop
(aborting the batch and discarding the partial result list), exactly as
an uncaught exception in `get_genome` would in the source. -/
def runSequentialE (f : α → Except ε β) : List α → Except ε (List β)
  | [] => .ok []
  | a :: rest =>
    match f a with
    | .ok b =>
      match runSequentialE f rest with
      | .ok bs => .ok (b :: bs)
      | .error e => .error e
    | .error e => .error e

/- ### Concrete oracle instances used by witnesses and counterexamples -/

/-- Transfer attempts that all succeed, delivering `content`. -/
def okAttempts (content : String) : Nat → AttemptOutcome := fun _ => ⟨content, true⟩

/-- Transfer attempts that are all interrupted after writing `content`. -/
def failAttempts (content : String) : Nat → AttemptOutcome := fun _ => ⟨content, false⟩

/-- A demonstration digest command. -/
def demoSum (s : String) : String := "sum-" ++ s

/-- A demonstration decompressor knowing two compressed payloads. -/
def demoGunzip (s : String) : Option String :=
  List.lookup s [("GZFA", "FASTA"), ("GZGTF", "GTF")]

/-- A remote fasta directory whose download verifies correctly. -/
def goodFastaFt : FtEnv :=
  ⟨true, ["Homo.fa.gz"], true, [("Homo.fa.gz", "sum-GZFA")],
    okAttempts "GZFA", okAttempts "RD"⟩

/-- A remote gtf directory whose download verifies correctly. -/
def goodGtfFt : FtEnv :=
  ⟨true, ["Homo.gtf.gz"], true, [("Homo.gtf.gz", "sum-GZGTF")],
    okAttempts "GZGTF", okAttempts "RD"⟩

/-- A fully healthy remote: both asset kinds resolve, download, verify
and decompress. -/
def goodEnv : EnsemblEnv :=
  ⟨true, fun ft => if ft == "fasta" then goodFastaFt else goodGtfFt, demoGunzip, demoSum⟩

example :
    (get_genome goodEnv ["fasta", "gtf"] false "fa.gz" []).2 =
      .ok (some ["Homo.fa", "Homo.gtf"]) := rfl

example :
    ((get_genome goodEnv ["fasta", "gtf"] false "fa.gz"
        (get_genome goodEnv ["fasta", "gtf"] false "fa.gz" []).1.fs).1.trace.countP
      NetEvent.isFetch) = 0 := by decide

example :
    ((get_genome goodEnv ["fasta", "gtf"] false "fa.gz"
        (get_genome goodEnv ["fasta", "gtf"] false "fa.gz" []).1.fs).1.trace.count
      NetEvent.retrChecksums) = 2 := by decide

/-- A catalog state with a genome FASTA entry whose file is on disk and
no GTF entry at all. -/
def c7State : NcbiState :=
  ⟨true, [⟨true, [⟨"GENOMIC_NUCLEOTIDE_FASTA", "GCF_1/GCF_1.fna"⟩]⟩],
    ["ncbi_dataset/data/GCF_1/GCF_1.fna"]⟩

/-- A catalog state with both a genome FASTA and a GTF entry, both files
on disk. -/
def c4NcbiState : NcbiState :=
  ⟨true,
    [⟨true, [⟨"GENOMIC_NUCLEOTIDE_FASTA", "GCF_1/GCF_1.fna"⟩, ⟨"GTF", "GCF_1/genomic.gtf"⟩]⟩],
    ["ncbi_dataset/data/GCF_1/GCF_1.fna", "ncbi_dataset/data/GCF_1/genomic.gtf"]⟩

/-- A remote fasta directory whose `CHECKSUMS` file has no entry for the
listed file (manifest lookup returns nothing), transfers succeeding. -/
def noCkFastaFt : FtEnv := ⟨true, ["Homo.fa.gz"], true, [], okAttempts "GZFA", okAttempts "RD"⟩

/-- A remote whose manifest has no entry for the downloaded file. -/
def noCkEnv : EnsemblEnv := ⟨true, fun _ => noCkFastaFt, demoGunzip, demoSum⟩

/-- A remote fasta directory whose `CHECKSUMS` retrieval fails and whose
asset transfer is interrupted after writing the bytes `PART` (which the
decompressor rejects). -/
def badFastaFt : FtEnv := ⟨true, ["Homo.fa.gz"], false, [], failAttempts "PART", okAttempts "RD"⟩

/-- A remote with a mid-write transfer interruption and no manifest. -/
def badEnv : EnsemblEnv := ⟨true, fun _ => badFastaFt, demoGunzip, demoSum⟩

/-- A remote fasta directory listing a file that does not end in `.gz`
(the `dna_file_ext` option is `fa` here). -/
def staleFastaFt : FtEnv := ⟨true, ["Homo.fa"], true, [], okAttempts "GZFA", okAttempts "RD"⟩

/-- A remote whose fasta candidate does not end in `.gz` while the gtf
candidate does. -/
def staleEnv : EnsemblEnv :=
  ⟨true, fun ft => if ft == "fasta" then staleFastaFt else goodGtfFt, demoGunzip, demoSum⟩

/-- A remote directory whose `ftp.nlst()` raises. -/
def crashFt : FtEnv := ⟨false, [], true, [], okAttempts "GZFA", okAttempts "RD"⟩

/-- A remote whose directory listing raises for every file type. -/
def crashEnv : EnsemblEnv := ⟨true, fun _ => crashFt, demoGunzip, demoSum⟩

/-- A batch where one species hits the listing failure and another is
perfectly healthy. -/
def c5EnvOf (s : String) : EnsemblEnv := if s == "bad_species" then crashEnv else goodEnv

/-- A single-candidate remote directory with the given manifest, the
asset transfer delivering `content`. -/
def mkFt (name : String) (cks : List (String × String)) (content : String) : FtEnv :=
  ⟨true, [name], true, cks, okAttempts content, okAttempts "RD"⟩

/-- A single-candidate healthy-transfer remote with arbitrary manifest,
decompressor and digest oracles. -/
def mkEnv (name : String) (cks : List (String × String)) (content : String)
    (g : String → Option String) (digest : String → String) : EnsemblEnv :=
  ⟨true, fun _ => mkFt name cks content, g, digest⟩

/-- A single-candidate remote whose manifest retrieval fails and whose
transfer is interrupted after writing `content`. -/
def mkFailEnv (name content : String) (g : String → Option String)
    (digest : String → String) : EnsemblEnv :=
  ⟨true, fun _ => ⟨true, [name], false, [], failAttempts content, okAttempts "RD"⟩, g, digest⟩

/-- The condition under which one iteration of the `get_genome` loop
skips all remote fetching: the listing succeeds and either yields no
candidate, or the selected candidate ends in `.gz` and its decompressed
final file already exists locally. -/
def skipCond (env : EnsemblEnv) (dnaExt : String) (fs : FS) (ft : String) : Bool :=
  (env.perType ft).nlstOk &&
    (match candidate_matches (env.perType ft).listing (extOf dnaExt ft) with
     | [] => true
     | m0 :: _ => strEndsWith m0 ".gz" && existsFile fs (replaceGz m0))

/- ### Sanity checks of the embedding on concrete inputs -/

example : containsSub "genome,gtf" "gtf" = true := by decide
example : containsSub "genome" "gtf" = false := by decide
example : strEndsWith "Homo.dna_sm.toplevel.fa.gz" "dna_sm.toplevel.fa.gz" = true := by decide
example : replaceGz "Homo.fa.gz" = "Homo.fa" := by decide
example : candidate_matches ["a.abinitio.gtf.gz", "a.gtf.gz", "b.gtf.gz"] "gtf.gz" = ["a.gtf.gz", "b.gtf.gz"] := by decide

/- ### Helper lemmas -/

/-- The download loop of the NCBI controller can never deliver a success
flag: the only `return (species, True)` inside it sits behind the
evaluation of the undefined name `zip_file`, so that path raises
`NameError` and ends in the catch-all `(species, False)` instead. -/
theorem ncbiLoop_never_true (attempts : Nat → NcbiAttempt) :
    ∀ fuel n, (ncbiLoop attempts fuel n).2 = false := by
  intro fuel
  induction fuel with
  | zero => intro n; rfl
  | succ k ih =>
    intro n
    rw [ncbiLoop]
    rcases h : attempts n with ⟨cmdOk, zo⟩
    cases cmdOk with
    | false => simpa [h] using ih (n + 1)
    | true =>
      cases zo with
      | badZip => simpa [h] using ih (n + 1)
      | extracted c =>
        cases c with
        | false => simpa [h] using ih (n + 1)
        | true => simp [h]

/-- When every `datasets` invocation fails, the NCBI download loop runs
one iteration per unit of fuel. -/
theorem ncbiLoop_count_all_fail (attempts : Nat → NcbiAttempt)
    (h : ∀ i, (attempts i).cmdOk = false) :
    ∀ fuel n, (ncbiLoop attempts fuel n).1 = n + fuel := by
  intro fuel
  induction fuel with
  | zero => intro n; rfl
  | succ k ih =>
    intro n
    rw [ncbiLoop]
    simp only [h n, Bool.false_eq_true, if_false]
    rw [ih (n + 1)]
    omega

/-- The head of a filtered list is the first element satisfying the
predicate. -/
theorem filter_head?_eq_find? (p : α → Bool) (l : List α) :
    (l.filter p).head? = l.find? p := by
  induction l with
  | nil => rfl
  | cons a r ih =>
    by_cases h : p a
    · simp [List.filter_cons, h, List.find?_cons_of_pos _ h]
    · simp only [Bool.not_eq_true] at h
      simp [List.filter_cons, h, List.find?_cons_of_neg, ih]

/- ### C2 -/

/-- C2, counterexample.  With `max_retries = 3` and a transfer that fails
on every attempt, the Ensembl `download_file` reports failure after a
single attempt: the `try` block encloses the whole retry loop, so the
first exception aborts all remaining attempts, contradicting the claim
that the transfer is attempted up to `max_retries` times before failure
is reported. -/
theorem c2_counterexample :
    (download_file (failAttempts "PART") 3 [] "Homo.fa.gz").2.1 = false ∧
    (download_file (failAttempts "PART") 3 [] "Homo.fa.gz").2.2 = 1 ∧
    (download_file (failAttempts "PART") 3 [] "Homo.fa.gz").2.2 ≠ 3 := by
  decide

/-- C2, amended.  The Ensembl fetcher `download_file` makes at most one
transfer attempt regardless of `max_retries` (a failure raises out of
the retry loop, a success returns immediately); only the NCBI download
loop genuinely retries: when every `datasets` invocation fails it makes
exactly `max_retries` attempts before failure. -/
theorem c2_amended :
    (∀ (attempts : Nat → AttemptOutcome) (maxRetries : Nat) (fs : FS) (path : String),
      (download_file attempts maxRetries fs path).2.2 ≤ 1)
    ∧ (∀ (attempts : Nat → NcbiAttempt) (maxRetries : Nat),
      (∀ i, (attempts i).cmdOk = false) →
      (ncbiLoop attempts maxRetries 0).1 = maxRetries) := by
  constructor
  · intro attempts mr fs path
    cases mr with
    | zero => simp [download_file, download_fileLoop]
    | succ k =>
      simp only [download_file, download_fileLoop]
      split <;> simp
  · intro attempts mr h
    simpa using ncbiLoop_count_all_fail attempts h mr 0

/-- C2, witness for the amended theorem at concrete inputs. -/
theorem c2_amended_witness :
    (download_file (failAttempts "PART") 3 [] "Homo.fa.gz").2.2 ≤ 1 ∧
    (ncbiLoop (fun _ => ⟨false, ZipOutcome.badZip⟩) 3 0).1 = 3 :=
  ⟨c2_amended.1 (failAttempts "PART") 3 [] "Homo.fa.gz",
   c2_amended.2 (fun _ => ⟨false, ZipOutcome.badZip⟩) 3 (fun _ => rfl)⟩

/- ### C6 -/

/-- C6.  The fan-out dispatch of `main` produces exactly the per-species
results in input order: for every concurrency level the result list is
`l.map f` (the sequential loop and `pool.starmap` agree), so there is
exactly one entry per input species, order is preserved when
`processes ≤ 1`, and changing the concurrency level never changes the
content of the results. -/
theorem c6_scheduler_one_result_per_species {α β : Type} (f : α → β)
    (processes : Nat) (l : List α) :
    runScheduler f processes l = l.map f ∧
    (runScheduler f processes l).length = l.length ∧
    runScheduler f processes l = runScheduler f 1 l := by
  have hseq : ∀ l' : List α, runSequential f l' = l'.map f := by
    intro l'
    induction l' with
    | nil => rfl
    | cons a r ih => simp [runSequential, ih]
  have h : ∀ p, runScheduler f p l = l.map f := by
    intro p
    unfold runScheduler runPool
    split <;> simp [hseq]
  exact ⟨h processes, by rw [h processes]; simp, by rw [h processes, h 1]⟩

/- ### C7 -/

/-- C7.  For the NCBI source, when the catalog names a genome FASTA whose
file exists locally and has no GTF entry at all, the controller returns
success without invoking any download (`gtf` is set `True` on the
missing-annotation branch). -/
theorem c7_missing_annotation_is_success (st : NcbiState)
    (attempts : Nat → NcbiAttempt) (maxRetries : Nat) (fileTypes : String)
    (asm : Assembly) (p : String)
    (hcat : st.catalogExists = true)
    (hacc : st.assemblies.find? (fun a => a.hasAccession) = some asm)
    (hfa : findFile asm.files "GENOMIC_NUCLEOTIDE_FASTA" = some p)
    (hex : ncbiExists st p = true)
    (hgtf : findFile asm.files "GTF" = none) :
    download_genome st attempts maxRetries fileTypes = (true, 0) := by
  simp [download_genome, hcat, hacc, hfa, hex, hgtf]

/-- C7, witness at a concrete catalog. -/
theorem c7_witness :
    download_genome c7State (fun _ => ⟨false, ZipOutcome.badZip⟩) 3 "genome,gtf" = (true, 0) :=
  c7_missing_annotation_is_success c7State (fun _ => ⟨false, ZipOutcome.badZip⟩) 3
    "genome,gtf" ⟨true, [⟨"GENOMIC_NUCLEOTIDE_FASTA", "GCF_1/GCF_1.fna"⟩]⟩
    "ncbi_dataset/data/GCF_1/GCF_1.fna" rfl rfl rfl (by decide) rfl

/- ### C9 -/

/-- C9.  Whenever the NCBI dataset catalog does not exist before the
call, the controller returns `(species, False)`: the fresh-download
success return is unreachable because it first evaluates the undefined
name `zip_file`, whose `NameError` is swallowed by the enclosing
`except Exception` handler. -/
theorem c9_fresh_download_always_fails (st : NcbiState)
    (attempts : Nat → NcbiAttempt) (maxRetries : Nat) (fileTypes : String)
    (h : st.catalogExists = false) :
    (download_genome st attempts maxRetries fileTypes).1 = false := by
  simp [download_genome, h, dlSection, ncbiLoop_never_true]

/-- C9, witness: a fresh species directory whose `datasets` command
succeeds and whose zip extracts the catalog still yields failure. -/
theorem c9_witness :
    (download_genome ⟨false, [], []⟩ (fun _ => ⟨true, ZipOutcome.extracted true⟩) 3
      "genome,gtf").1 = false :=
  c9_fresh_download_always_fails ⟨false, [], []⟩
    (fun _ => ⟨true, ZipOutcome.extracted true⟩) 3 "genome,gtf" rfl

/- ### C8 -/

/-- C8.  The FTP-style resolver keeps exactly the listed names that end
with the required suffix and do not contain the `abinitio` marker, and
the selected candidate (`matches[0]`) is the first such name in listing
order. -/
theorem c8_filter_and_first_selection (fileList : List String) (ext : String) :
    (∀ f, f ∈ candidate_matches fileList ext ↔
        f ∈ fileList ∧ (strEndsWith f ext && !(containsSub f "abinitio")) = true)
    ∧ (candidate_matches fileList ext).head? = fileList.find? (keepFile ext) := by
  refine ⟨fun f => ?_, ?_⟩
  · simp [candidate_matches, keepFile, List.mem_filter]
  · exact filter_head?_eq_find? (keepFile ext) fileList

/- ### C10 -/

/-- C10, counterexample.  A run whose gtf candidate ends in `.gz` and is
processed first, followed by a fasta candidate that does not end in
`.gz`, completes without any unbound-variable error: the second
iteration silently reuses the stale `unzipped_file` binding of the first
iteration, contradicting the claim that completion without the error
requires every processed kind to select a `.gz` candidate. -/
theorem c10_counterexample :
    (get_genome staleEnv ["gtf", "fasta"] false "fa" []).2 = .ok (some ["Homo.gtf"]) ∧
    candidate_matches (staleEnv.perType "fasta").listing (extOf "fa" "fasta") = ["Homo.fa"] ∧
    strEndsWith "Homo.fa" ".gz" = false :=
  ⟨rfl, rfl, by decide⟩

/-- C10, amended.  If the first processed asset kind selects a candidate
that does not end in `.gz`, the name of the decompressed target
(`unzipped_file`) is read before ever being assigned and `get_genome`
raises the unbound-variable error; a later kind whose candidate lacks
`.gz` instead silently reuses the stale binding from an earlier kind. -/
theorem c10_amended (env : EnsemblEnv) (rest : List String) (ft0 : String)
    (force : Bool) (dnaExt : String) (fs0 : FS) (m0 : String) (ms : List String)
    (hconn : env.connectOk = true)
    (hnlst : (env.perType ft0).nlstOk = true)
    (hm : candidate_matches (env.perType ft0).listing (extOf dnaExt ft0) = m0 :: ms)
    (hgz : strEndsWith m0 ".gz" = false) :
    (get_genome env (ft0 :: rest) force dnaExt fs0).2 = .error .nameError := by
  simp only [get_genome, hconn, Bool.not_true, Bool.false_eq_true, if_false, runTypes]
  simp only [processType, hnlst, Bool.not_true, Bool.false_eq_true, if_false, hm, hgz]

/-- C10, witness for the amended theorem: fasta processed first with a
non-`.gz` candidate raises the unbound-variable error. -/
theorem c10_amended_witness :
    (get_genome staleEnv ["fasta"] false "fa" []).2 = .error .nameError :=
  c10_amended staleEnv [] "fasta" false "fa" [] "Homo.fa" [] rfl rfl (by decide) (by decide)

/- ### C1 -/

/-- C1, counterexample.  The manifest has no entry for the downloaded
file name, yet `get_genome` decompresses it to the canonical final name
and reports it in the per-species result: the verification step is
guarded by `matches[0] in checksums.keys()`, so a missing manifest entry
skips verification instead of blocking finalization. -/
theorem c1_counterexample :
    List.lookup "Homo.fa.gz" noCkFastaFt.checksums = none ∧
    (get_genome noCkEnv ["fasta"] false "fa.gz" []).2 = .ok (some ["Homo.fa"]) ∧
    existsFile (get_genome noCkEnv ["fasta"] false "fa.gz" []).1.fs "Homo.fa" = true :=
  ⟨rfl, rfl, by decide⟩

/- ### C3 -/

/-- C3, counterexample.  A transfer interrupted mid-write (with the
manifest unavailable) leaves the incomplete compressed file in place;
its failed decompression creates an empty file at the canonical final
path; and a second run finds that final file present and treats the
request as satisfied without any re-fetch.  So a partial write is
mistaken for a complete file, contradicting the claim. -/
theorem c3_counterexample :
    existsFile (get_genome badEnv ["fasta"] false "fa.gz" []).1.fs "Homo.fa" = true ∧
    readFile (get_genome badEnv ["fasta"] false "fa.gz" []).1.fs "Homo.fa" = "" ∧
    (get_genome badEnv ["fasta"] false "fa.gz" []).2 = .ok (some []) ∧
    ((get_genome badEnv ["fasta"] false "fa.gz"
        (get_genome badEnv ["fasta"] false "fa.gz" []).1.fs).1.trace.countP
      NetEvent.isFetch) = 0 ∧
    (get_genome badEnv ["fasta"] false "fa.gz"
        (get_genome badEnv ["fasta"] false "fa.gz" []).1.fs).2 = .ok (some []) :=
  ⟨by decide, by decide, rfl, by decide, rfl⟩

/- ### C4 -/

/-- C4, counterexample.  Re-running the engine with identical inputs
after a fully successful first run performs no asset fetches but still
performs network transfers: it reconnects, lists each remote directory,
and retrieves the `CHECKSUMS` manifest file for each asset kind (two
`RETR CHECKSUMS` transfers here), contradicting the claim of zero
network transfers on the second run. -/
theorem c4_counterexample :
    (get_genome goodEnv ["fasta", "gtf"] false "fa.gz" []).2 =
      .ok (some ["Homo.fa", "Homo.gtf"]) ∧
    ((get_genome goodEnv ["fasta", "gtf"] false "fa.gz"
        (get_genome goodEnv ["fasta", "gtf"] false "fa.gz" []).1.fs).1.trace.count
      NetEvent.retrChecksums) = 2 ∧
    ((get_genome goodEnv ["fasta", "gtf"] false "fa.gz"
        (get_genome goodEnv ["fasta", "gtf"] false "fa.gz" []).1.fs).1.trace.count
      NetEvent.retrChecksums) ≠ 0 :=
  ⟨rfl, by decide, by decide⟩

/- ### C5 -/

/-- C5, counterexample.  The first species hits a directory-listing
failure (`ftp.nlst()` raising outside the handler of `get_ftp_files`),
which is not caught at the per-species boundary: the sequential batch
aborts with that exception and the second species — which on its own
would succeed — is never processed and never receives a result. -/
theorem c5_counterexample :
    ensemblController c5EnvOf ["fasta", "gtf"] false "fa.gz" [] "bad_species" =
      .error .listError ∧
    ensemblController c5EnvOf ["fasta", "gtf"] false "fa.gz" [] "good_species" =
      .ok (some ["Homo.fa", "Homo.gtf"]) ∧
    runSequentialE (ensemblController c5EnvOf ["fasta", "gtf"] false "fa.gz" [])
      ["bad_species", "good_species"] = .error .listError :=
  ⟨rfl, rfl, rfl⟩

/-- C5, amended.  Per-species isolation holds only when no per-species
call raises: then the sequential scheduler yields exactly one result per
species.  The moment one species raises an uncaught exception
(connection failures return `None` instead, but listing failures and the
missing-`.gz` unbound-variable error do raise), the batch loop
propagates it: processing stops at that species and no result list is
produced for any species. -/
theorem c5_amended :
    (∀ {α ε β : Type} (f : α → Except ε β) (l : List α),
      (∀ a ∈ l, (f a).isOk = true) →
      runSequentialE f l = .ok (l.filterMap fun a => (f a).toOption))
    ∧ (∀ {α ε β : Type} (f : α → Except ε β) (x : α) (rest : List α) (e : ε),
      f x = .error e → runSequentialE f (x :: rest) = .error e) := by
  constructor
  · intro α ε β f l h
    induction l with
    | nil => rfl
    | cons a r ih =>
      have ha := h a (by simp)
      rcases hfa : f a with e | b
      · rw [hfa] at ha; simp [Except.isOk, Except.toBool] at ha
      · rw [runSequentialE, hfa, ih (fun x hx => h x (by simp [hx]))]
        simp [hfa, Except.toOption]
  · intro α ε β f x rest e he
    rw [runSequentialE, he]

/-- C5, witness for the amended theorem: a healthy one-species batch
yields its result list; prepending the raising species aborts the
batch. -/
theorem c5_amended_witness :
    runSequentialE (ensemblController c5EnvOf ["fasta", "gtf"] false "fa.gz" [])
      ["good_species"] =
      .ok (["good_species"].filterMap fun a =>
        (ensemblController c5EnvOf ["fasta", "gtf"] false "fa.gz" [] a).toOption) ∧
    runSequentialE (ensemblController c5EnvOf ["fasta", "gtf"] false "fa.gz" [])
      ("bad_species" :: ["good_species"]) = .error .listError :=
  ⟨c5_amended.1 (ensemblController c5EnvOf ["fasta", "gtf"] false "fa.gz" [])
      ["good_species"] (by decide),
   c5_amended.2 (ensemblController c5EnvOf ["fasta", "gtf"] false "fa.gz" [])
      "bad_species" ["good_species"] .listError rfl⟩

/-- When the skip condition holds for one file type, that iteration of
the `get_genome` loop performs no fetch: it only lists the directory and
retrieves the manifest, leaving the file system and the result
accumulator untouched. -/
theorem processType_skip (env : EnsemblEnv) (dnaExt : String) (st : GSt) (ft : String)
    (h : skipCond env dnaExt st.fs ft = true) :
    ∃ st1, processType env false dnaExt st ft = .ok st1 ∧ st1.fs = st.fs ∧
      st1.downloads = st.downloads ∧
      st1.trace.countP NetEvent.isFetch = st.trace.countP NetEvent.isFetch := by
  rw [skipCond] at h
  rcases hm : candidate_matches (env.perType ft).listing (extOf dnaExt ft) with _ | ⟨m0, ms⟩
  · rw [hm] at h
    simp only [Bool.and_true, Bool.and_eq_true] at h
    refine ⟨{ st with trace := st.trace ++ [NetEvent.nlst ft] }, ?_, rfl, rfl, ?_⟩
    · simp [processType, h, hm]
    · simp [List.countP_append, NetEvent.isFetch, List.countP_cons]
  · rw [hm] at h
    simp only [Bool.and_eq_true] at h
    obtain ⟨hnlst, hend, hex⟩ := h
    refine ⟨⟨st.fs, (st.trace ++ [NetEvent.nlst ft]) ++ [NetEvent.retrChecksums],
      st.downloads, some (replaceGz m0)⟩, ?_, rfl, rfl, ?_⟩
    · simp [processType, hnlst, hm, hend, hex]
    · simp [List.countP_append, NetEvent.isFetch, List.countP_cons]

/-- When the skip condition holds for every requested file type, the
whole loop performs no fetch and changes nothing locally. -/
theorem runTypes_skip (env : EnsemblEnv) (dnaExt : String) :
    ∀ (fts : List String) (st : GSt),
      (∀ ft ∈ fts, skipCond env dnaExt st.fs ft = true) →
      ∃ st1, runTypes env false dnaExt fts st = .ok st1 ∧ st1.fs = st.fs ∧
        st1.downloads = st.downloads ∧
        st1.trace.countP NetEvent.isFetch = st.trace.countP NetEvent.isFetch := by
  intro fts
  induction fts with
  | nil => intro st _; exact ⟨st, rfl, rfl, rfl, rfl⟩
  | cons ft rest ih =>
    intro st h
    obtain ⟨st1, he1, hfs1, hdl1, htr1⟩ := processType_skip env dnaExt st ft (h ft (by simp))
    obtain ⟨st2, he2, hfs2, hdl2, htr2⟩ := ih st1 (fun x hx => by
      rw [hfs1]; exact h x (by simp [hx]))
    refine ⟨st2, ?_, by rw [hfs2, hfs1], by rw [hdl2, hdl1], by rw [htr2, htr1]⟩
    simp only [runTypes, he1, he2]

/-- C4, amended.  A second run over a local state where every requested
kind is already satisfied (final decompressed file present, no force
refresh) performs zero asset fetches and changes no local file — but the
FTP engine still reconnects, re-lists each directory, and re-retrieves
the checksum manifest (those transfers are counted separately, see the
counterexample).  The NCBI engine, whose catalog inspection is local,
performs zero `datasets` invocations when both catalogued files exist. -/
theorem c4_amended :
    (∀ (env : EnsemblEnv) (fileTypes : List String) (dnaExt : String) (fs0 : FS),
      env.connectOk = true →
      (∀ ft ∈ fileTypes, skipCond env dnaExt fs0 ft = true) →
      ((get_genome env fileTypes false dnaExt fs0).1.trace.countP NetEvent.isFetch = 0 ∧
        (get_genome env fileTypes false dnaExt fs0).2 = .ok (some []) ∧
        (get_genome env fileTypes false dnaExt fs0).1.fs = fs0))
    ∧ (∀ (st : NcbiState) (attempts : Nat → NcbiAttempt) (maxRetries : Nat)
        (fileTypes : String) (asm : Assembly) (pf pg : String),
      st.catalogExists = true →
      st.assemblies.find? (fun a => a.hasAccession) = some asm →
      findFile asm.files "GENOMIC_NUCLEOTIDE_FASTA" = some pf →
      ncbiExists st pf = true →
      findFile asm.files "GTF" = some pg →
      ncbiExists st pg = true →
      download_genome st attempts maxRetries fileTypes = (true, 0)) := by
  constructor
  · intro env fileTypes dnaExt fs0 hconn h
    obtain ⟨st1, he, hfs, hdl, htr⟩ :=
      runTypes_skip env dnaExt fileTypes ⟨fs0, [NetEvent.connect], [], none⟩ h
    simp only [get_genome, hconn, Bool.not_true, Bool.false_eq_true, if_false, he]
    refine ⟨?_, ?_, ?_⟩
    · rw [htr]; rfl
    · rw [hdl]
    · rw [hfs]
  · intro st attempts m fts asm pf pg hcat hacc hfa hexf hgt hexg
    simp [download_genome, hcat, hacc, hfa, hexf, hgt, hexg]

/-- C4, witness for the amended theorem: the literal run-twice scenario
on a healthy remote, and a satisfied NCBI catalog. -/
theorem c4_amended_witness :
    ((get_genome goodEnv ["fasta", "gtf"] false "fa.gz"
        (get_genome goodEnv ["fasta", "gtf"] false "fa.gz" []).1.fs).1.trace.countP
          NetEvent.isFetch = 0 ∧
      (get_genome goodEnv ["fasta", "gtf"] false "fa.gz"
        (get_genome goodEnv ["fasta", "gtf"] false "fa.gz" []).1.fs).2 = .ok (some []) ∧
      (get_genome goodEnv ["fasta", "gtf"] false "fa.gz"
        (get_genome goodEnv ["fasta", "gtf"] false "fa.gz" []).1.fs).1.fs =
          (get_genome goodEnv ["fasta", "gtf"] false "fa.gz" []).1.fs) ∧
    download_genome c4NcbiState (fun _ => ⟨false, ZipOutcome.badZip⟩) 3 "genome,gtf" =
      (true, 0) :=
  ⟨c4_amended.1 goodEnv ["fasta", "gtf"] "fa.gz"
      (get_genome goodEnv ["fasta", "gtf"] false "fa.gz" []).1.fs rfl (by decide),
   c4_amended.2 c4NcbiState (fun _ => ⟨false, ZipOutcome.badZip⟩) 3 "genome,gtf"
      ⟨true, [⟨"GENOMIC_NUCLEOTIDE_FASTA", "GCF_1/GCF_1.fna"⟩, ⟨"GTF", "GCF_1/genomic.gtf"⟩]⟩
      "ncbi_dataset/data/GCF_1/GCF_1.fna" "ncbi_dataset/data/GCF_1/genomic.gtf"
      rfl rfl rfl (by decide) rfl (by decide)⟩

/-- C1, amended.  When the manifest has an entry for the downloaded file
name, the file is finalized only if its computed digest matches: on a
mismatch the compressed file is deleted and the kind reports no asset.
When the manifest has no entry for the name, verification is skipped
entirely and the file is decompressed to the canonical final name and
reported in the per-species result anyway. -/
theorem c1_amended (v c out : String) (g : String → Option String)
    (digest : String → String) (hne : digest c ≠ v) (hg : g c = some out) :
    ((get_genome (mkEnv "Homo.fa.gz" [("Homo.fa.gz", v)] c g digest) ["fasta"] false
        "fa.gz" []).1.downloads = [] ∧
      existsFile (get_genome (mkEnv "Homo.fa.gz" [("Homo.fa.gz", v)] c g digest) ["fasta"]
        false "fa.gz" []).1.fs "Homo.fa.gz" = false ∧
      existsFile (get_genome (mkEnv "Homo.fa.gz" [("Homo.fa.gz", v)] c g digest) ["fasta"]
        false "fa.gz" []).1.fs "Homo.fa" = false) ∧
    (get_genome (mkEnv "Homo.fa.gz" [] c g digest) ["fasta"] false "fa.gz"
        []).1.downloads = ["Homo.fa"] := by
  have hb : (digest c == v) = false := beq_eq_false_iff_ne.mpr hne
  have hcm : candidate_matches ["Homo.fa.gz"] (extOf "fa.gz" "fasta") = ["Homo.fa.gz"] := by
    decide
  have hend : strEndsWith "Homo.fa.gz" ".gz" = true := by decide
  have hrep : replaceGz "Homo.fa.gz" = "Homo.fa" := by decide
  refine ⟨?_, ?_⟩
  · simp [get_genome, runTypes, processType, mkEnv, mkFt, okAttempts, hcm, hend, hrep, hb,
      download_file, download_fileLoop, existsFile, readFile, writeFile, removeKey,
      List.lookup]
  · simp [get_genome, runTypes, processType, mkEnv, mkFt, okAttempts, hcm, hend, hrep, hg,
      download_file, download_fileLoop, existsFile, readFile, writeFile, removeKey,
      List.lookup]

/-- C1, witness for the amended theorem: a digest that cannot match and
a known decompressible payload. -/
theorem c1_amended_witness :
    ((get_genome (mkEnv "Homo.fa.gz" [("Homo.fa.gz", "OTHER")] "GZFA" demoGunzip demoSum)
        ["fasta"] false "fa.gz" []).1.downloads = [] ∧
      existsFile (get_genome (mkEnv "Homo.fa.gz" [("Homo.fa.gz", "OTHER")] "GZFA"
        demoGunzip demoSum) ["fasta"] false "fa.gz" []).1.fs "Homo.fa.gz" = false ∧
      existsFile (get_genome (mkEnv "Homo.fa.gz" [("Homo.fa.gz", "OTHER")] "GZFA"
        demoGunzip demoSum) ["fasta"] false "fa.gz" []).1.fs "Homo.fa" = false) ∧
    (get_genome (mkEnv "Homo.fa.gz" [] "GZFA" demoGunzip demoSum) ["fasta"] false "fa.gz"
        []).1.downloads = ["Homo.fa"] :=
  c1_amended "OTHER" "GZFA" "FASTA" demoGunzip demoSum (by decide) rfl

/-- C3, amended.  On failure after exhausting the (single effective)
retry, the engine can leave files behind that later runs mistake for
complete assets: with the manifest unavailable, the interrupted
compressed file stays on disk, its failed decompression creates an empty
file at the canonical final path, the failing run reports no asset for
the kind, and a second run finds the final path present and performs no
fetch at all. -/
theorem c3_amended (c : String) (g : String → Option String) (digest : String → String)
    (hg : g c = none) :
    existsFile (get_genome (mkFailEnv "Homo.fa.gz" c g digest) ["fasta"] false "fa.gz"
        []).1.fs "Homo.fa" = true ∧
    readFile (get_genome (mkFailEnv "Homo.fa.gz" c g digest) ["fasta"] false "fa.gz"
        []).1.fs "Homo.fa" = "" ∧
    (get_genome (mkFailEnv "Homo.fa.gz" c g digest) ["fasta"] false "fa.gz"
        []).1.downloads = [] ∧
    ((get_genome (mkFailEnv "Homo.fa.gz" c g digest) ["fasta"] false "fa.gz"
        (get_genome (mkFailEnv "Homo.fa.gz" c g digest) ["fasta"] false "fa.gz"
          []).1.fs).1.trace.countP NetEvent.isFetch) = 0 := by
  have hcm : candidate_matches ["Homo.fa.gz"] (extOf "fa.gz" "fasta") = ["Homo.fa.gz"] := by
    decide
  have hend : strEndsWith "Homo.fa.gz" ".gz" = true := by decide
  have hrep : replaceGz "Homo.fa.gz" = "Homo.fa" := by decide
  refine ⟨?_, ?_, ?_, ?_⟩ <;>
    simp [get_genome, runTypes, processType, mkFailEnv, failAttempts, okAttempts, hcm, hend,
      hrep, hg, download_file, download_fileLoop, existsFile, readFile, writeFile, removeKey,
      List.lookup, NetEvent.isFetch]

/-- C3, witness for the amended theorem at a concrete interrupted
payload. -/
theorem c3_amended_witness :
    existsFile (get_genome (mkFailEnv "Homo.fa.gz" "PART" demoGunzip demoSum) ["fasta"]
        false "fa.gz" []).1.fs "Homo.fa" = true ∧
    readFile (get_genome (mkFailEnv "Homo.fa.gz" "PART" demoGunzip demoSum) ["fasta"]
        false "fa.gz" []).1.fs "Homo.fa" = "" ∧
    (get_genome (mkFailEnv "Homo.fa.gz" "PART" demoGunzip demoSum) ["fasta"] false "fa.gz"
        []).1.downloads = [] ∧
    ((get_genome (mkFailEnv "Homo.fa.gz" "PART" demoGunzip demoSum) ["fasta"] false "fa.gz"
        (get_genome (mkFailEnv "Homo.fa.gz" "PART" demoGunzip demoSum) ["fasta"] false
          "fa.gz" []).1.fs).1.trace.countP NetEvent.isFetch) = 0 :=
  c3_amended "PART" demoGunzip demoSum rfl
